import Mathlib

/-!
Shallow embedding of the ttfr-platform forensic core (src/core) and proofs
of the specification claims about it.

Conventions of the embedding:
* Python `int` is `Int`, strings are `String`.
* A Python dict used as an event payload is an insertion-ordered association
  list `List (String × PyVal)` (CPython ≥ 3.7 preserves insertion order, and
  the f-string rendering used by `stable_repr` shows entries in that order).
* Python code that can raise is embedded in `Except String`; code that cannot
  raise is a plain function.
* `hashlib.sha256(...).hexdigest()` is embedded as a full executable SHA-256
  (FIPS 180-4) over byte lists, producing the lowercase hex string.
-/

namespace TTFRPlatform

/-- A Python payload value: the fragment of Python values the forensic core
actually stores in payloads (integers and strings). -/
inductive PyVal where
  | int (n : Int)
  | str (s : String)
deriving DecidableEq

/-- An insertion-ordered Python dict with string keys, as used for
`ForensicEvent.payload`. -/
abbrev Payload := List (String × PyVal)

/-- Python `dict.get(k, default)`: the value at the key, or the default. -/
def pyGet (p : Payload) (k : String) (default : PyVal) : PyVal :=
  match p.lookup k with
  | some v => v
  | none => default

/-- Python `repr` of a string over the printable-ASCII fragment used by the
forensic core: single quotes unless the string contains `'` and no `"`;
backslashes and the chosen quote are escaped. -/
def pyStrReprBody (quote : Char) (s : String) : String :=
  String.mk (s.toList.flatMap (fun c =>
    if c = '\\' then ['\\', '\\']
    else if c = quote then ['\\', quote]
    else [c]))

/-- Quote character Python `repr` picks for a string literal. -/
def pyQuoteChar (s : String) : Char :=
  if s.toList.contains '\'' && !(s.toList.contains '"') then '"' else '\''

/-- Python `repr(s)` for a string `s` (printable-ASCII fragment). -/
def pyStrRepr (s : String) : String :=
  let q := pyQuoteChar s
  String.mk [q] ++ pyStrReprBody q s ++ String.mk [q]

/-- Python `repr` of a payload value: decimal for ints, quoted for strings. -/
def pyValRepr : PyVal → String
  | .int n => toString n
  | .str s => pyStrRepr s

/-- Python `repr`/`str` of a dict, e.g. `\x7b'a': 1, 'b': 2\x7d`: entries in
insertion order, `", "`-separated. -/
def pyDictRepr (p : Payload) : String :=
  match p with
  | [] => "\x7b\x7d"
  | first :: rest =>
    "\x7b" ++ pyStrRepr first.1 ++ ": " ++ pyValRepr first.2 ++
      String.join (rest.map (fun kv => ", " ++ pyStrRepr kv.1 ++ ": " ++ pyValRepr kv.2)) ++
      "\x7d"

/-- `ForensicEvent` (src/core/event.py): immutable canonical forensic event. -/
structure ForensicEvent where
  seq : Int
  timestamp : Int
  event_type : String
  payload : Payload
deriving DecidableEq

/-- `ForensicEvent.stable_repr` (src/core/event.py line 15-16):
`f"{self.seq}|{self.timestamp}|{self.event_type}|{self.payload}"` — the
payload is rendered via Python's dict `str`, i.e. in insertion order. -/
def ForensicEvent.stable_repr (e : ForensicEvent) : String :=
  toString e.seq ++ "|" ++ toString e.timestamp ++ "|" ++ e.event_type ++ "|" ++
    pyDictRepr e.payload

/-! ## UTF-8 and SHA-256 (the meaning of `.encode("utf-8")` and `hashlib.sha256`) -/

/-- UTF-8 encoding of one Unicode scalar value, as a list of bytes. -/
def utf8Char (c : Char) : List Nat :=
  let n := c.toNat
  if n < 128 then [n]
  else if n < 2048 then [192 ||| (n >>> 6), 128 ||| (n &&& 63)]
  else if n < 65536 then
    [224 ||| (n >>> 12), 128 ||| ((n >>> 6) &&& 63), 128 ||| (n &&& 63)]
  else
    [240 ||| (n >>> 18), 128 ||| ((n >>> 12) &&& 63),
     128 ||| ((n >>> 6) &&& 63), 128 ||| (n &&& 63)]

/-- Python `s.encode("utf-8")` as a list of bytes. -/
def utf8Bytes (s : String) : List Nat :=
  s.toList.flatMap utf8Char

/-- 32-bit truncation. -/
def trunc32 (x : Nat) : Nat := x % 4294967296

/-- 32-bit right rotation. -/
def rotr32 (n x : Nat) : Nat := trunc32 ((x >>> n) ||| (x <<< (32 - n)))

/-- SHA-256 `Ch(x,y,z)`. -/
def sha2Ch (x y z : Nat) : Nat := (x &&& y) ^^^ ((x ^^^ 4294967295) &&& z)

/-- SHA-256 `Maj(x,y,z)`. -/
def sha2Maj (x y z : Nat) : Nat := (x &&& y) ^^^ (x &&& z) ^^^ (y &&& z)

/-- SHA-256 big sigma 0. -/
def bsig0 (x : Nat) : Nat := rotr32 2 x ^^^ rotr32 13 x ^^^ rotr32 22 x

/-- SHA-256 big sigma 1. -/
def bsig1 (x : Nat) : Nat := rotr32 6 x ^^^ rotr32 11 x ^^^ rotr32 25 x

/-- SHA-256 small sigma 0. -/
def ssig0 (x : Nat) : Nat := rotr32 7 x ^^^ rotr32 18 x ^^^ (x >>> 3)

/-- SHA-256 small sigma 1. -/
def ssig1 (x : Nat) : Nat := rotr32 17 x ^^^ rotr32 19 x ^^^ (x >>> 10)

/-- The 64 SHA-256 round constants (FIPS 180-4 section 4.2.2, here in
decimal). -/
def K256 : List Nat :=
  [1116352408, 1899447441, 3049323471, 3921009573, 961987163,
   1508970993, 2453635748, 2870763221, 3624381080, 310598401,
   607225278, 1426881987, 1925078388, 2162078206, 2614888103,
   3248222580, 3835390401, 4022224774, 264347078, 604807628,
   770255983, 1249150122, 1555081692, 1996064986, 2554220882,
   2821834349, 2952996808, 3210313671, 3336571891, 3584528711,
   113926993, 338241895, 666307205, 773529912, 1294757372,
   1396182291, 1695183700, 1986661051, 2177026350, 2456956037,
   2730485921, 2820302411, 3259730800, 3345764771, 3516065817,
   3600352804, 4094571909, 275423344, 430227734, 506948616,
   659060556, 883997877, 958139571, 1322822218, 1537002063,
   1747873779, 1955562222, 2024104815, 2227730452, 2361852424,
   2428436474, 2756734187, 3204031479, 3329325298]

/-- The SHA-256 initial hash value (FIPS 180-4 section 5.3.3, in decimal). -/
def sha2H0 : List Nat :=
  [1779033703, 3144134277, 1013904242, 2773480762,
   1359893119, 2600822924, 528734635, 1541459225]

/-- Big-endian bytes of a `Nat` over `k` bytes (most significant first). -/
def beBytes (k n : Nat) : List Nat :=
  (List.range k).map (fun i => (n >>> (8 * (k - 1 - i))) &&& 255)

/-- SHA-256 message padding: append `0x80`, zeros to 56 mod 64, then the
64-bit big-endian bit length. -/
def sha256Pad (msg : List Nat) : List Nat :=
  let L := msg.length
  let z := (119 - (L % 64)) % 64
  msg ++ (128 :: List.replicate z 0) ++ beBytes 8 (8 * L)

/-- Split a byte list into 64-byte blocks (fuel-driven so the kernel can
evaluate it). -/
def toBlocksFuel : Nat → List Nat → List (List Nat)
  | 0, _ => []
  | _, [] => []
  | fuel + 1, l => l.take 64 :: toBlocksFuel fuel (l.drop 64)

/-- Split a padded message into 64-byte blocks. -/
def toBlocks (l : List Nat) : List (List Nat) :=
  toBlocksFuel (l.length + 1) l

/-- The 16 big-endian 32-bit words of one 64-byte block. -/
def blockWords (block : List Nat) : List Nat :=
  (List.range 16).map (fun i =>
    (block.getD (4 * i) 0) <<< 24 ||| (block.getD (4 * i + 1) 0) <<< 16 |||
    (block.getD (4 * i + 2) 0) <<< 8 ||| block.getD (4 * i + 3) 0)

/-- Extend 16 message words to the 64-entry SHA-256 message schedule. -/
def extendSchedule (w16 : List Nat) : List Nat :=
  (List.range 48).foldl (fun w i =>
    w ++ [trunc32 (ssig1 (w.getD (i + 14) 0) + w.getD (i + 9) 0 +
                   ssig0 (w.getD (i + 1) 0) + w.getD i 0)]) w16

/-- One SHA-256 round on the 8-register state. -/
def sha2Round (st : Nat × Nat × Nat × Nat × Nat × Nat × Nat × Nat)
    (wk : Nat × Nat) : Nat × Nat × Nat × Nat × Nat × Nat × Nat × Nat :=
  match st, wk with
  | (a, b, c, d, e, f, g, h), (w, k) =>
    let t1 := h + bsig1 e + sha2Ch e f g + k + w
    let t2 := bsig0 a + sha2Maj a b c
    (trunc32 (t1 + t2), a, b, c, trunc32 (d + t1), e, f, g)

/-- SHA-256 compression of one 64-byte block into the 8-word chaining value. -/
def compressBlock (h : List Nat) (block : List Nat) : List Nat :=
  let w := extendSchedule (blockWords block)
  let a0 := h.getD 0 0
  let b0 := h.getD 1 0
  let c0 := h.getD 2 0
  let d0 := h.getD 3 0
  let e0 := h.getD 4 0
  let f0 := h.getD 5 0
  let g0 := h.getD 6 0
  let h0 := h.getD 7 0
  match (w.zip K256).foldl sha2Round (a0, b0, c0, d0, e0, f0, g0, h0) with
  | (a, b, c, d, e, f, g, hh) =>
    [trunc32 (a0 + a), trunc32 (b0 + b), trunc32 (c0 + c), trunc32 (d0 + d),
     trunc32 (e0 + e), trunc32 (f0 + f), trunc32 (g0 + g), trunc32 (h0 + hh)]

/-- SHA-256 digest of a byte list, as the 8 final 32-bit words. -/
def sha256Words (msg : List Nat) : List Nat :=
  (toBlocks (sha256Pad msg)).foldl compressBlock sha2H0

/-- Lowercase hex rendering of one 32-bit word as 8 characters. -/
def hexWord (w : Nat) : List Char :=
  (List.range 8).map (fun i => Nat.digitChar ((w >>> (4 * (7 - i))) &&& 15))

/-- `hashlib.sha256(msg).hexdigest()`: the 64-character lowercase hex digest. -/
def sha256Hex (msg : List Nat) : String :=
  String.mk ((sha256Words msg).flatMap hexWord)

/-! ## evidence.py and hash_chain.py -/

/-- The bytes successively fed to the hasher by the `for e in events:
h.update(e.stable_repr().encode("utf-8"))` loops. -/
def eventsBytes (events : List ForensicEvent) : List Nat :=
  events.flatMap (fun e => utf8Bytes e.stable_repr)

/-- `compute_evidence_hash` (src/core/evidence.py): SHA-256 over the
concatenated stable representations of the events. -/
def compute_evidence_hash (events : List ForensicEvent) : String :=
  sha256Hex (eventsBytes events)

/-- `EvidenceChain` state (src/core/hash_chain.py): the previous digest and
the list of stored digests. -/
structure EvidenceChain where
  _previous_hash : Option String
  _chain : List String
deriving DecidableEq

/-- A freshly constructed `EvidenceChain()`. -/
def EvidenceChain.new : EvidenceChain := ⟨none, []⟩

/-- `EvidenceChain.add_snapshot`: hash the previous digest (when truthy)
followed by every event's stable representation, append the digest to the
chain and record it as previous. Returns the new state and the digest. -/
def EvidenceChain.add_snapshot (c : EvidenceChain) (events : List ForensicEvent) :
    EvidenceChain × String :=
  let prevBytes :=
    match c._previous_hash with
    | some p => if p = "" then [] else utf8Bytes p
    | none => []
  let snapshot_hash := sha256Hex (prevBytes ++ eventsBytes events)
  (⟨some snapshot_hash, c._chain ++ [snapshot_hash]⟩, snapshot_hash)

/-- Python `h.startswith(pre)` (character-based). -/
def pyStartswith (h pre : String) : Bool :=
  List.isPrefixOf pre.toList h.toList

/-- Python `s[:8]` (character-based slice). -/
def pySlice8 (s : String) : String :=
  String.mk (s.toList.take 8)

/-- The loop of `EvidenceChain.verify`: walk the digests carrying the
previous one; fail when a digest does not start with the truthy previous
digest's first 8 characters. -/
def verifyLoop : Option String → List String → Bool
  | _, [] => true
  | prev, d :: rest =>
    match prev with
    | some p =>
      if p != "" && !(pyStartswith d (pySlice8 p)) then false
      else verifyLoop (some d) rest
    | none => verifyLoop (some d) rest

/-- `EvidenceChain.verify` (src/core/hash_chain.py lines 32-41). -/
def EvidenceChain.verify (c : EvidenceChain) : Bool :=
  verifyLoop none c._chain

/-! ## ttfr.py and replay.py -/

/-- `TTFR` state (src/core/ttfr.py): the recorded events and the counter. -/
structure TTFR where
  _events : List ForensicEvent
  _seq : Int
deriving DecidableEq

/-- A freshly constructed `TTFR()`. -/
def TTFR.new : TTFR := ⟨[], 0⟩

/-- `TTFR.record`: append a new event carrying the current counter as `seq`,
then increment the counter. -/
def TTFR.record (t : TTFR) (timestamp : Int) (event_type : String)
    (payload : Payload) : TTFR :=
  ⟨t._events ++ [⟨t._seq, timestamp, event_type, payload⟩], t._seq + 1⟩

/-- `TTFR.snapshot`: the recorded events (in Python, `list(self._events)`,
a fresh list with the same elements). -/
def TTFR.snapshot (t : TTFR) : List ForensicEvent := t._events

/-- `ReplaySession` state (src/core/replay.py): the events sorted at
construction time. -/
structure ReplaySession where
  _events : List ForensicEvent
deriving DecidableEq

/-- `ReplaySession(events)`: `sorted(events, key=lambda e: e.seq)` — a stable
ascending sort by `seq`. A stable sort's output is uniquely determined, so
insertion sort computes exactly what Python's `sorted` returns. -/
def ReplaySession.new (events : List ForensicEvent) : ReplaySession :=
  ⟨List.insertionSort (fun a b => a.seq ≤ b.seq) events⟩

/-- `ReplaySession.replay`: return the stored sorted list. -/
def ReplaySession.replay (s : ReplaySession) : List ForensicEvent := s._events

/-! ## replay_source.py (JsonReplaySource) -/

/-- Drop leading and trailing whitespace characters from a character list. -/
def stripChars (l : List Char) : List Char :=
  ((l.dropWhile Char.isWhitespace).reverse.dropWhile Char.isWhitespace).reverse

/-- Python `line.strip()` over the ASCII whitespace the core encounters. -/
def pyStrip (s : String) : String := String.mk (stripChars s.toList)

/-- The line loop of `JsonReplaySource.load` (src/core/replay_source.py
lines 40-62), parametric in the JSON parser: `parse` embeds `json.loads`
(returning some parsed value of type `J` or a parse-failure message) and
`conv` embeds the record extraction `int(e["timestamp"]), str(e["type"]),
dict(e.get("payload", {}))`, which can itself raise (KeyError on a missing
key, TypeError/ValueError on an uncoercible value) on a parsed-but-invalid
record. Lines are numbered from `line_num`; blank lines (after `strip`) are
skipped; a parse failure aborts with
`RuntimeError(f"Invalid JSON on line {line_num}: {err}")`, while an
extraction failure propagates uncaught and unwrapped (the `try` only
catches `json.JSONDecodeError`). -/
def JsonReplaySource.loadLoop {J : Type} (parse : String → Except String J)
    (conv : J → Except String (Int × String × Payload)) :
    Nat → List String → TTFR → Except String TTFR
  | _, [], t => .ok t
  | line_num, raw :: rest, t =>
    let line := pyStrip raw
    if line = "" then JsonReplaySource.loadLoop parse conv (line_num + 1) rest t
    else
      match parse line with
      | .error err =>
          .error ("Invalid JSON on line " ++ toString line_num ++ ": " ++ err)
      | .ok j =>
          match conv j with
          | .error err => .error err
          | .ok (ts, ty, pl) =>
            JsonReplaySource.loadLoop parse conv (line_num + 1) rest
              (t.record ts ty pl)

/-- `JsonReplaySource.load`: run the line loop from line 1 on a fresh `TTFR`
and wrap the snapshot in a `ReplaySession`; a parse or extraction failure
yields the error instead (no session is produced). -/
def JsonReplaySource.load {J : Type} (parse : String → Except String J)
    (conv : J → Except String (Int × String × Payload)) (lines : List String) :
    Except String ReplaySession :=
  match JsonReplaySource.loadLoop parse conv 1 lines TTFR.new with
  | .error e => .error e
  | .ok t => .ok (ReplaySession.new t.snapshot)

/-! ## Python coercions used by the analysis passes -/

/-- Python `int(s)` on a string: strip whitespace, optional sign, decimal
digits; anything else raises `ValueError`. (Underscore digit grouping is not
modelled; no claim exercises it.) -/
def pyIntOfString (s : String) : Except String Int :=
  let t := (pyStrip s).toList
  let signDigits : Int × List Char :=
    match t with
    | '-' :: rest => (-1, rest)
    | '+' :: rest => (1, rest)
    | l => (1, l)
  match signDigits with
  | (sign, digits) =>
    if digits ≠ [] ∧ digits.all Char.isDigit then
      .ok (sign * Int.ofNat (digits.foldl (fun acc c => acc * 10 + (c.toNat - 48)) 0))
    else
      .error ("ValueError: invalid literal for int: " ++ s)

/-- Python `int(v)` on a payload value: identity on ints, digit parsing on
strings (raising on non-numeric strings). -/
def pyInt : PyVal → Except String Int
  | .int n => .ok n
  | .str s => pyIntOfString s

/-- Python `str(v)` on a payload value (never raises). -/
def pyStr : PyVal → String
  | .int n => toString n
  | .str s => s

/-- Python `c.lower()` for the ASCII letters the core compares. -/
def asciiLowerChar (c : Char) : Char :=
  if 65 ≤ c.toNat ∧ c.toNat ≤ 90 then Char.ofNat (c.toNat + 32) else c

/-- Python `s.lower()` on a string. -/
def lowerStr (s : String) : String := String.mk (s.toList.map asciiLowerChar)

/-- Python `v.lower()`: lowercases a string, raises `AttributeError` on a
non-string payload value. -/
def pyLower : PyVal → Except String String
  | .str s => .ok (lowerStr s)
  | .int _ => .error "AttributeError: lower is not an int attribute"

/-- Scan for an occurrence of `sub` as a contiguous run of `l`. -/
def listInfix (sub : List Char) : List Char → Bool
  | [] => sub.isEmpty
  | c :: rest => List.isPrefixOf sub (c :: rest) || listInfix sub rest

/-- Python `sub in s` for strings: substring containment. -/
def strContains (s sub : String) : Bool :=
  listInfix sub.toList s.toList

/-! ## entities.py -/

/-- `ProcessEntity` (src/core/entities.py). -/
structure ProcessEntity where
  pid : Int
  image : String
deriving DecidableEq

/-- `NetworkEntity` (src/core/entities.py). -/
structure NetworkEntity where
  dst : String
  port : Int
deriving DecidableEq

/-- `FileEntity` (src/core/entities.py). -/
structure FileEntity where
  path : String
deriving DecidableEq

/-- `EntityExtractor` state: the three deduplicated entity sets (Python
`set`s, embedded as `Finset`s since identity is structural). -/
structure EntityExtractor where
  processes : Finset ProcessEntity
  networks : Finset NetworkEntity
  files : Finset FileEntity
deriving DecidableEq

/-- A freshly constructed `EntityExtractor()`. -/
def EntityExtractor.new : EntityExtractor := ⟨∅, ∅, ∅⟩

/-- `EntityExtractor.process_event` (src/core/entities.py lines 41-68):
dispatch on `event_type`, reading payload fields with `dict.get` defaults
and Python coercions (`int(...)` may raise on a malformed value, which the
`Except` tracks). -/
def EntityExtractor.process_event (st : EntityExtractor) (e : ForensicEvent) :
    Except String EntityExtractor :=
  let p := e.payload
  if e.event_type = "process_start" then
    match pyInt (pyGet p "pid" (.int (-1))) with
    | .error err => .error err
    | .ok pid =>
        .ok ⟨insert ⟨pid, pyStr (pyGet p "image" (.str "<unknown>"))⟩ st.processes,
             st.networks, st.files⟩
  else if e.event_type = "network_connect" then
    match pyInt (pyGet p "port" (.int (-1))) with
    | .error err => .error err
    | .ok port =>
        .ok ⟨st.processes,
             insert ⟨pyStr (pyGet p "dst" (.str "<unknown>")), port⟩ st.networks,
             st.files⟩
  else if e.event_type = "file_write" then
    .ok ⟨st.processes, st.networks,
         insert ⟨pyStr (pyGet p "path" (.str "<unknown>"))⟩ st.files⟩
  else
    .ok st

/-! ## detections.py -/

/-- `DetectionHit` (src/core/detections.py). -/
structure DetectionHit where
  rule_id : String
  description : String
  event_seq : Int
  timestamp : Int
  evidence : String
deriving DecidableEq

/-- A detection rule: `evaluate(event) -> list of hits` (raising embedded in
`Except`). -/
abbrev DetectionRule := ForensicEvent → Except String (List DetectionHit)

/-- `SuspiciousPowerShellRule.evaluate`: one `DET-PS-001` hit when a
`process_start` image lowercases to a string containing "powershell". -/
def SuspiciousPowerShellRule.evaluate (event : ForensicEvent) :
    Except String (List DetectionHit) :=
  if event.event_type = "process_start" then
    match pyLower (pyGet event.payload "image" (.str "")) with
    | .error err => .error err
    | .ok image =>
      if strContains image "powershell" then
        .ok [⟨"DET-PS-001", "Suspicious PowerShell execution", event.seq,
              event.timestamp, "Process image: " ++ image⟩]
      else .ok []
  else .ok []

/-- `SuspiciousC2ConnectionRule.evaluate`: one `DET-C2-001` hit when a
`network_connect` port (default 0) is neither 80 nor 443. -/
def SuspiciousC2ConnectionRule.evaluate (event : ForensicEvent) :
    Except String (List DetectionHit) :=
  if event.event_type = "network_connect" then
    match pyInt (pyGet event.payload "port" (.int 0)) with
    | .error err => .error err
    | .ok port =>
      if port != 80 && port != 443 then
        .ok [⟨"DET-C2-001", "Suspicious outbound network connection", event.seq,
              event.timestamp, "Outbound connection on port " ++ toString port⟩]
      else .ok []
  else .ok []

/-- The inner loop of `RetroDetectionEngine.run`: evaluate every rule in
list order on one event and concatenate the hits. -/
def evalRules : List DetectionRule → ForensicEvent → Except String (List DetectionHit)
  | [], _ => .ok []
  | r :: rest, e =>
    match r e with
    | .error err => .error err
    | .ok hits =>
      match evalRules rest e with
      | .error err => .error err
      | .ok more => .ok (hits ++ more)

/-- `RetroDetectionEngine.run` (src/core/detections.py lines 86-93): for
each event in order, evaluate every rule in order, concatenating hits. -/
def RetroDetectionEngine.run (rules : List DetectionRule) :
    List ForensicEvent → Except String (List DetectionHit)
  | [] => .ok []
  | e :: rest =>
    match evalRules rules e with
    | .error err => .error err
    | .ok hits =>
      match RetroDetectionEngine.run rules rest with
      | .error err => .error err
      | .ok more => .ok (hits ++ more)

/-- The rule list the spec's detection scenarios use, in order. -/
def builtinRules : List DetectionRule :=
  [SuspiciousPowerShellRule.evaluate, SuspiciousC2ConnectionRule.evaluate]

/-! ## mitre.py -/

/-- `MitreTechnique` (src/core/mitre.py). -/
structure MitreTechnique where
  technique_id : String
  name : String
  event_seq : Int
  timestamp : Int
  rationale : String
deriving DecidableEq

/-- `MitreMapper.map_event` (src/core/mitre.py lines 23-84): dispatch on
`event_type`; for `process_start` the image (default `""`) is lowercased
(raising on a non-string value) and checked for "powershell". -/
def MitreMapper.map_event (event : ForensicEvent) :
    Except String (List MitreTechnique) :=
  let et := event.event_type
  let p := event.payload
  if et = "process_start" then
    match pyLower (pyGet p "image" (.str "")) with
    | .error err => .error err
    | .ok image =>
      if strContains image "powershell" then
        .ok [⟨"T1059.001", "PowerShell", event.seq, event.timestamp,
              "PowerShell process execution detected"⟩]
      else
        .ok [⟨"T1059", "Command and Scripting Interpreter", event.seq,
              event.timestamp, "Generic process execution"⟩]
  else if et = "network_connect" then
    .ok [⟨"T1071.001", "Application Layer Protocol: Web Protocols", event.seq,
          event.timestamp, "Outbound network connection observed"⟩]
  else if et = "file_write" then
    .ok [⟨"T1105", "Ingress Tool Transfer", event.seq, event.timestamp,
          "Executable written to disk"⟩]
  else
    .ok []

/-! ## Claim theorems -/

/-- Structural equality on embedded Python results is decidable. -/
instance {ε α : Type} [DecidableEq ε] [DecidableEq α] : DecidableEq (Except ε α) :=
  fun a b =>
    match a, b with
    | .ok x, .ok y =>
      if h : x = y then isTrue (congrArg Except.ok h)
      else isFalse (fun hc => h (Except.ok.inj hc))
    | .ok _, .error _ => isFalse (fun hc => Except.noConfusion hc)
    | .error _, .ok _ => isFalse (fun hc => Except.noConfusion hc)
    | .error x, .error y =>
      if h : x = y then isTrue (congrArg Except.error h)
      else isFalse (fun hc => h (Except.error.inj hc))

/-- C10: for every event list, the digest returned by the first
`add_snapshot` call on a freshly constructed `EvidenceChain` equals
`compute_evidence_hash` of the same events: with no previous digest the
chained hash covers exactly the concatenated stable representations. -/
theorem c10_first_digest_refines_evidence_hash (events : List ForensicEvent) :
    (EvidenceChain.new.add_snapshot events).2 = compute_evidence_hash events := rfl

set_option maxRecDepth 100000 in
/-- C1 (failing-input evaluation): the code contradicts the claim in both
directions. After two `add_snapshot([])` calls on a fresh chain — an
unmodified chain — `verify()` returns `false`, because the second digest
does not start with the first digest's first 8 hex characters. And when the
single stored digest of a 1-snapshot chain is altered to a different value
(here all zeros), `verify()` still returns `true`, because no linkage check
applies to a single digest. The first conjunct pins the concrete reachable
state (the empty-input SHA-256 digest). -/
theorem c1_verify_code_bug :
    (EvidenceChain.new.add_snapshot []).1 =
      ⟨some "e3b0c44298fc1c149afbf4c8996fb92427ae41e4649b934ca495991b7852b855",
       ["e3b0c44298fc1c149afbf4c8996fb92427ae41e4649b934ca495991b7852b855"]⟩ ∧
    ((EvidenceChain.new.add_snapshot []).1.add_snapshot []).1.verify = false ∧
    "0000000000000000000000000000000000000000000000000000000000000000" ≠
      "e3b0c44298fc1c149afbf4c8996fb92427ae41e4649b934ca495991b7852b855" ∧
    (EvidenceChain.mk
      (some "e3b0c44298fc1c149afbf4c8996fb92427ae41e4649b934ca495991b7852b855")
      ["0000000000000000000000000000000000000000000000000000000000000000"]).verify
      = true := by
  refine ⟨by decide, by decide, by decide, by decide⟩

set_option maxRecDepth 100000 in
/-- C2 (failing-input evaluation): two events equal in `seq`, `timestamp`,
`event_type` and payload contents, differing only in payload key insertion
order, have different `stable_repr` strings (the f-string renders the dict
in insertion order, not sorted) and contribute different evidence-chain
digests. -/
theorem c2_stable_repr_code_bug :
    (ForensicEvent.mk 0 0 "t" [("a", .int 1), ("b", .int 2)]).stable_repr ≠
      (ForensicEvent.mk 0 0 "t" [("b", .int 2), ("a", .int 1)]).stable_repr ∧
    compute_evidence_hash [⟨0, 0, "t", [("a", .int 1), ("b", .int 2)]⟩] ≠
      compute_evidence_hash [⟨0, 0, "t", [("b", .int 2), ("a", .int 1)]⟩] := by
  refine ⟨by decide, by decide⟩

/-- C6 (counterexample): a `process_start` event whose `pid` payload value is
the non-integer-coercible string "abc" makes `process_event` raise
(`int("abc")` raises `ValueError`), contradicting "never raises ...
malformed pid degrades to -1". -/
theorem c6_counterexample :
    (EntityExtractor.new.process_event
      ⟨0, 0, "process_start", [("pid", PyVal.str "abc")]⟩).isOk = false := by
  decide

/-- C7: the detection engine with the two built-in rules in order yields
exactly one `DET-PS-001` hit on the PowerShell `process_start` event,
exactly one `DET-C2-001` hit on the port-4444 `network_connect` event, and
no hit on the port-443 `network_connect` event. -/
theorem c7_detection_engine :
    (∃ h, RetroDetectionEngine.run builtinRules
        [⟨0, 0, "process_start", [("image", PyVal.str "C:\\PowerShell.exe")]⟩] =
          .ok [h] ∧ h.rule_id = "DET-PS-001") ∧
    (∃ h, RetroDetectionEngine.run builtinRules
        [⟨0, 0, "network_connect", [("port", PyVal.int 4444)]⟩] =
          .ok [h] ∧ h.rule_id = "DET-C2-001") ∧
    RetroDetectionEngine.run builtinRules
        [⟨0, 0, "network_connect", [("port", PyVal.int 443)]⟩] = .ok [] := by
  refine ⟨⟨⟨"DET-PS-001", "Suspicious PowerShell execution", 0, 0,
            "Process image: c:\\powershell.exe"⟩, by decide, rfl⟩,
          ⟨⟨"DET-C2-001", "Suspicious outbound network connection", 0, 0,
            "Outbound connection on port 4444"⟩, by decide, rfl⟩,
          by decide⟩

/-- C8 (counterexample): `map_event` on a `process_start` event whose
`image` payload value is an integer raises (`.lower()` on an int raises
`AttributeError`) instead of returning the claimed single `T1059`
technique, so the claim does not hold for every `ForensicEvent`. -/
theorem c8_counterexample :
    (MitreMapper.map_event ⟨0, 0, "process_start", [("image", PyVal.int 0)]⟩).isOk
      = false := by
  decide

/-! ### C3: replay ordering -/

instance : IsTotal ForensicEvent (fun a b => a.seq ≤ b.seq) :=
  ⟨fun a b => Int.le_total a.seq b.seq⟩

instance : IsTrans ForensicEvent (fun a b => a.seq ≤ b.seq) :=
  ⟨fun _ _ _ h1 h2 => le_trans h1 h2⟩

/-- Pairwise facts combine pointwise. -/
theorem pairwiseAnd {α : Type} {R S : α → α → Prop} :
    ∀ {l : List α}, l.Pairwise R → l.Pairwise S →
      l.Pairwise (fun a b => R a b ∧ S a b) := by
  intro l hR hS
  induction l with
  | nil => exact List.Pairwise.nil
  | cons a l ih =>
    cases hR with
    | cons hRa hRl =>
      cases hS with
      | cons hSa hSl => exact List.Pairwise.cons (fun b hb => ⟨hRa b hb, hSa b hb⟩) (ih hRl hSl)

/-- C3 (counterexample): for a list whose two events share `seq` 0, `replay`
returns them in insertion order, which is not strictly ascending by `seq`,
so the claim's "sorted strictly ascending" fails on lists with duplicate
sequence numbers. -/
theorem c3_counterexample :
    (ReplaySession.new [⟨0, 5, "t", []⟩, ⟨0, 6, "t", []⟩]).replay =
      [⟨0, 5, "t", []⟩, ⟨0, 6, "t", []⟩] ∧
    ¬ List.Chain' (fun a b : ForensicEvent => a.seq < b.seq)
        ((ReplaySession.new [⟨0, 5, "t", []⟩, ⟨0, 6, "t", []⟩]).replay) := by
  constructor
  · rfl
  · intro h
    rw [show (ReplaySession.new [⟨0, 5, "t", []⟩, ⟨0, 6, "t", []⟩]).replay =
        [⟨0, 5, "t", []⟩, ⟨0, 6, "t", []⟩] from rfl] at h
    rcases h with _ | ⟨hlt, _⟩
    exact absurd hlt (by decide)

/-- C3 (amended): for every list of `ForensicEvent`s with pairwise-distinct
`seq` values, in arbitrary insertion order, `replay()` returns exactly those
events (a permutation of the input) sorted strictly ascending by `seq`, and
calling `replay()` twice on the same session yields identical sequences. -/
theorem c3_amended (es : List ForensicEvent)
    (hd : es.Pairwise (fun a b => a.seq ≠ b.seq)) :
    (ReplaySession.new es).replay.Perm es ∧
    List.Chain' (fun a b : ForensicEvent => a.seq < b.seq)
      (ReplaySession.new es).replay ∧
    (ReplaySession.new es).replay = (ReplaySession.new es).replay := by
  have hperm : (List.insertionSort (fun a b : ForensicEvent => a.seq ≤ b.seq) es).Perm es :=
    List.perm_insertionSort _ es
  have hsorted : (List.insertionSort (fun a b : ForensicEvent => a.seq ≤ b.seq) es).Pairwise
      (fun a b => a.seq ≤ b.seq) :=
    List.sorted_insertionSort _ es
  have hne : (List.insertionSort (fun a b : ForensicEvent => a.seq ≤ b.seq) es).Pairwise
      (fun a b => a.seq ≠ b.seq) :=
    (hperm.pairwise_iff (by intro x y h he; exact h he.symm)).2 hd
  refine ⟨hperm, ?_, rfl⟩
  exact ((pairwiseAnd hsorted hne).imp
    (fun h => lt_of_le_of_ne h.1 h.2)).chain'

/-- C3 witness: the amended theorem applied to a concrete 2-element list
given out of order. -/
theorem c3_amended_witness :
    (ReplaySession.new [⟨1, 0, "a", []⟩, ⟨0, 0, "b", []⟩]).replay.Perm
      [⟨1, 0, "a", []⟩, ⟨0, 0, "b", []⟩] ∧
    List.Chain' (fun a b : ForensicEvent => a.seq < b.seq)
      (ReplaySession.new [⟨1, 0, "a", []⟩, ⟨0, 0, "b", []⟩]).replay ∧
    (ReplaySession.new [⟨1, 0, "a", []⟩, ⟨0, 0, "b", []⟩]).replay =
      (ReplaySession.new [⟨1, 0, "a", []⟩, ⟨0, 0, "b", []⟩]).replay :=
  c3_amended [⟨1, 0, "a", []⟩, ⟨0, 0, "b", []⟩] (by decide)

/-! ### C4: the record store assigns sequence numbers 0..n-1 -/

/-- Run a sequence of `record(timestamp, event_type, payload)` calls. -/
def recordAll (t : TTFR) (calls : List (Int × String × Payload)) : TTFR :=
  calls.foldl (fun acc c => acc.record c.1 c.2.1 c.2.2) t

/-- The events those calls should produce, with `seq` counting from
`start`. -/
def expectedEvents (start : Int) : List (Int × String × Payload) → List ForensicEvent
  | [] => []
  | c :: rest => ⟨start, c.1, c.2.1, c.2.2⟩ :: expectedEvents (start + 1) rest

/-- Recording from any store state appends the expected events and advances
the counter by the number of calls. -/
theorem recordAll_state (calls : List (Int × String × Payload)) :
    ∀ t : TTFR, recordAll t calls =
      ⟨t._events ++ expectedEvents t._seq calls, t._seq + calls.length⟩ := by
  induction calls with
  | nil =>
    intro t
    cases t
    simp [recordAll, expectedEvents]
  | cons c rest ih =>
    intro t
    have hstep : recordAll t (c :: rest) = recordAll (t.record c.1 c.2.1 c.2.2) rest := rfl
    rw [hstep, ih]
    simp [TTFR.record, expectedEvents]
    omega

/-- The sequence numbers of the expected events count up from `start`. -/
theorem expectedEvents_map_seq (calls : List (Int × String × Payload)) :
    ∀ start : Int, (expectedEvents start calls).map ForensicEvent.seq =
      (List.range calls.length).map (fun i : Nat => start + (i : Int)) := by
  induction calls with
  | nil => intro start; simp [expectedEvents]
  | cons c rest ih =>
    intro start
    have h1 : List.map ForensicEvent.seq (expectedEvents start (c :: rest)) =
        start :: List.map (fun i : Nat => start + 1 + (i : Int)) (List.range rest.length) := by
      rw [show expectedEvents start (c :: rest) =
        ⟨start, c.1, c.2.1, c.2.2⟩ :: expectedEvents (start + 1) rest from rfl]
      rw [List.map_cons, ih (start + 1)]
    rw [h1, List.length_cons, List.range_succ_eq_map, List.map_cons, List.map_map]
    have hfun : (fun i : Nat => start + 1 + (i : Int)) =
        ((fun i : Nat => start + (i : Int)) ∘ Nat.succ) := by
      funext i
      simp [Function.comp]
      ring
    rw [hfun]
    simp

/-- C4: for every sequence of `record` calls on a fresh store, `snapshot()`
returns exactly the recorded events in order, their `seq` values are
`0..n-1` respectively, and no two events share a `seq`. -/
theorem c4_record_assigns_sequential_seq (calls : List (Int × String × Payload)) :
    (recordAll TTFR.new calls).snapshot = expectedEvents 0 calls ∧
    ((recordAll TTFR.new calls).snapshot.map ForensicEvent.seq) =
      (List.range calls.length).map (fun i : Nat => (i : Int)) ∧
    (recordAll TTFR.new calls).snapshot.Pairwise (fun a b => a.seq ≠ b.seq) := by
  have hsnap : (recordAll TTFR.new calls).snapshot = expectedEvents 0 calls := by
    rw [show recordAll TTFR.new calls =
      ⟨TTFR.new._events ++ expectedEvents TTFR.new._seq calls,
       TTFR.new._seq + calls.length⟩ from recordAll_state calls TTFR.new]
    simp [TTFR.snapshot, TTFR.new]
  have hmap : ((recordAll TTFR.new calls).snapshot.map ForensicEvent.seq) =
      (List.range calls.length).map (fun i : Nat => (i : Int)) := by
    rw [hsnap, expectedEvents_map_seq calls 0]
    simp
  refine ⟨hsnap, hmap, ?_⟩
  have hinj : Function.Injective (fun i : Nat => (i : Int)) := by
    intro a b h
    exact Nat.cast_inj.mp h
  have hnodup : ((List.range calls.length).map (fun i : Nat => (i : Int))).Nodup :=
    (List.nodup_range calls.length).map hinj
  rw [← hmap] at hnodup
  exact (List.pairwise_map).1 hnodup

/-! ### C5: JSONL ingestion -/

/-- When every line before `l` is blank or both parses and extracts, the
loop reaches `l` and fails there with the 1-based line number
`n + before.length`. -/
theorem loadLoop_first_bad_line {J : Type} (parse : String → Except String J)
    (conv : J → Except String (Int × String × Payload)) (l : String)
    (after : List String) (msg : String)
    (hl : ¬ pyStrip l = "") (herr : parse (pyStrip l) = .error msg) :
    ∀ (before : List String) (n : Nat) (t : TTFR),
      (∀ x ∈ before, pyStrip x = "" ∨
        ∃ j, parse (pyStrip x) = Except.ok j ∧ ∃ v, conv j = Except.ok v) →
      JsonReplaySource.loadLoop parse conv n (before ++ l :: after) t =
        .error ("Invalid JSON on line " ++ toString (n + before.length) ++ ": " ++ msg) := by
  intro before
  induction before with
  | nil =>
    intro n t _
    simp [JsonReplaySource.loadLoop, hl, herr]
  | cons b rest ih =>
    intro n t hok
    have hnum : n + 1 + rest.length = n + (rest.length + 1) := by omega
    by_cases hb : pyStrip b = ""
    · have : JsonReplaySource.loadLoop parse conv n ((b :: rest) ++ l :: after) t =
          JsonReplaySource.loadLoop parse conv (n + 1) (rest ++ l :: after) t := by
        simp [JsonReplaySource.loadLoop, hb]
      rw [this, ih (n + 1) t (fun x hx => hok x (List.mem_cons_of_mem b hx)), hnum]
      simp
    · obtain ⟨j, hj, v, hv⟩ := (hok b (List.mem_cons_self b rest)).resolve_left hb
      have : JsonReplaySource.loadLoop parse conv n ((b :: rest) ++ l :: after) t =
          JsonReplaySource.loadLoop parse conv (n + 1) (rest ++ l :: after)
            (t.record v.1 v.2.1 v.2.2) := by
        simp [JsonReplaySource.loadLoop, hb, hj, hv]
      rw [this, ih (n + 1) _ (fun x hx => hok x (List.mem_cons_of_mem b hx)), hnum]
      simp

/-- C5: in `JsonReplaySource.load` every blank line is skipped (it only
advances the line counter), and when the first non-blank unparseable line
`l` is preceded only by lines that are blank or both parse and extract
successfully (so that the uncaught extraction-error path is not taken
earlier), `load` fails with a fatal error naming `l`'s 1-based line number
and the parse failure, producing no `ReplaySession`. -/
theorem c5_load_blank_skip_and_fatal_parse {J : Type}
    (parse : String → Except String J)
    (conv : J → Except String (Int × String × Payload))
    (blank : String) (rest : List String) (n : Nat) (t : TTFR)
    (before after : List String) (l msg : String)
    (hb : pyStrip blank = "")
    (hok : ∀ x ∈ before, pyStrip x = "" ∨
      ∃ j, parse (pyStrip x) = Except.ok j ∧ ∃ v, conv j = Except.ok v)
    (hl : ¬ pyStrip l = "") (herr : parse (pyStrip l) = Except.error msg) :
    JsonReplaySource.loadLoop parse conv n (blank :: rest) t =
      JsonReplaySource.loadLoop parse conv (n + 1) rest t ∧
    JsonReplaySource.load parse conv (before ++ l :: after) =
      .error ("Invalid JSON on line " ++ toString (before.length + 1) ++ ": " ++ msg) := by
  constructor
  · simp [JsonReplaySource.loadLoop, hb]
  · have h := loadLoop_first_bad_line parse conv l after msg hl herr before 1 TTFR.new hok
    rw [show (1 : Nat) + before.length = before.length + 1 from by omega] at h
    simp [JsonReplaySource.load, h]

/-- C5 witness: the theorem applied with a concrete toy parser and
extractor, a blank line, and a file whose second line is malformed. -/
theorem c5_load_witness :
    JsonReplaySource.loadLoop (fun s => if s = "ok" then Except.ok () else Except.error "bad")
        (fun _ => Except.ok (0, "t", [])) 3 (" " :: ["x"]) TTFR.new =
      JsonReplaySource.loadLoop (fun s => if s = "ok" then Except.ok () else Except.error "bad")
        (fun _ => Except.ok (0, "t", [])) 4 ["x"] TTFR.new ∧
    JsonReplaySource.load (fun s => if s = "ok" then Except.ok () else Except.error "bad")
        (fun _ => Except.ok (0, "t", [])) (["ok"] ++ "nope" :: []) =
      .error ("Invalid JSON on line " ++ toString (List.length ["ok"] + 1) ++ ": " ++ "bad") :=
  c5_load_blank_skip_and_fatal_parse
    (fun s => if s = "ok" then Except.ok () else Except.error "bad")
    (fun _ => Except.ok (0, "t", [])) " " ["x"] 3 TTFR.new ["ok"] [] "nope" "bad"
    (by decide)
    (by
      intro x hx
      rw [List.mem_singleton] at hx
      subst hx
      exact Or.inr ⟨(), by decide, (0, "t", []), by decide⟩)
    (by decide) (by decide)

/-! ### C6: entity extraction degradation -/

/-- C6 (amended): `process_event` never raises provided every `pid`/`port`
payload value it reads coerces to an integer; a missing `pid` or `port`
degrades to the sentinel `-1` and a missing `image`, `dst`, or `path`
degrades to the sentinel `"<unknown>"`. -/
theorem c6_amended (st : EntityExtractor) (e : ForensicEvent)
    (hpid : e.event_type = "process_start" →
      (pyInt (pyGet e.payload "pid" (.int (-1)))).isOk = true)
    (hport : e.event_type = "network_connect" →
      (pyInt (pyGet e.payload "port" (.int (-1)))).isOk = true) :
    (st.process_event e).isOk = true ∧
    (e.event_type = "process_start" → e.payload.lookup "pid" = none →
      e.payload.lookup "image" = none →
      st.process_event e =
        .ok ⟨insert ⟨-1, "<unknown>"⟩ st.processes, st.networks, st.files⟩) ∧
    (e.event_type = "network_connect" → e.payload.lookup "port" = none →
      e.payload.lookup "dst" = none →
      st.process_event e =
        .ok ⟨st.processes, insert ⟨"<unknown>", -1⟩ st.networks, st.files⟩) ∧
    (e.event_type = "file_write" → e.payload.lookup "path" = none →
      st.process_event e =
        .ok ⟨st.processes, st.networks, insert ⟨"<unknown>"⟩ st.files⟩) := by
  refine ⟨?_, ?_, ?_, ?_⟩
  · by_cases h1 : e.event_type = "process_start"
    · cases hv : pyInt (pyGet e.payload "pid" (.int (-1))) with
      | error err =>
        have := hpid h1
        rw [hv] at this
        simp [Except.isOk, Except.toBool] at this
      | ok pid => simp [EntityExtractor.process_event, h1, hv, Except.isOk, Except.toBool]
    · by_cases h2 : e.event_type = "network_connect"
      · cases hv : pyInt (pyGet e.payload "port" (.int (-1))) with
        | error err =>
          have := hport h2
          rw [hv] at this
          simp [Except.isOk, Except.toBool] at this
        | ok port => simp [EntityExtractor.process_event, h1, h2, hv, Except.isOk, Except.toBool]
      · by_cases h3 : e.event_type = "file_write"
        · simp [EntityExtractor.process_event, h1, h2, h3, Except.isOk, Except.toBool]
        · simp [EntityExtractor.process_event, h1, h2, h3, Except.isOk, Except.toBool]
  · intro h1 hp hi
    simp [EntityExtractor.process_event, h1, pyGet, hp, hi, pyInt, pyStr]
  · intro h2 hp hd
    have h1 : ¬ e.event_type = "process_start" := by
      rw [h2]
      decide
    simp [EntityExtractor.process_event, h1, h2, pyGet, hp, hd, pyInt, pyStr]
  · intro h3 hp
    have h1 : ¬ e.event_type = "process_start" := by
      rw [h3]
      decide
    have h2 : ¬ e.event_type = "network_connect" := by
      rw [h3]
      decide
    simp [EntityExtractor.process_event, h1, h2, h3, pyGet, hp, pyStr]

/-- C6 witness: the amended theorem applied to a `process_start` event with
an empty payload — both sentinels appear. -/
theorem c6_amended_witness :
    ((EntityExtractor.new.process_event ⟨0, 0, "process_start", []⟩).isOk = true) ∧
    ("process_start" = "process_start" → List.lookup "pid" ([] : Payload) = none →
      List.lookup "image" ([] : Payload) = none →
      EntityExtractor.new.process_event ⟨0, 0, "process_start", []⟩ =
        .ok ⟨insert ⟨-1, "<unknown>"⟩ EntityExtractor.new.processes,
             EntityExtractor.new.networks, EntityExtractor.new.files⟩) ∧
    ("process_start" = "network_connect" → List.lookup "port" ([] : Payload) = none →
      List.lookup "dst" ([] : Payload) = none →
      EntityExtractor.new.process_event ⟨0, 0, "process_start", []⟩ =
        .ok ⟨EntityExtractor.new.processes, insert ⟨"<unknown>", -1⟩ EntityExtractor.new.networks,
             EntityExtractor.new.files⟩) ∧
    ("process_start" = "file_write" → List.lookup "path" ([] : Payload) = none →
      EntityExtractor.new.process_event ⟨0, 0, "process_start", []⟩ =
        .ok ⟨EntityExtractor.new.processes, EntityExtractor.new.networks,
             insert ⟨"<unknown>"⟩ EntityExtractor.new.files⟩) :=
  c6_amended EntityExtractor.new ⟨0, 0, "process_start", []⟩
    (fun _ => by decide) (fun h => absurd h (by decide))

/-! ### C8: MITRE mapping -/

/-- C8 (amended): `map_event` implements the claimed technique table for
every event whose `image` payload value, as read for a `process_start`
(default `""`), is a string `s`: one `T1059.001` when the lowercased image
contains "powershell", one `T1059` for any other `process_start`, one
`T1071.001` for `network_connect`, one `T1105` for `file_write`, and no
technique otherwise. -/
theorem c8_amended (e : ForensicEvent) (s : String)
    (himg : e.event_type = "process_start" →
      pyGet e.payload "image" (.str "") = PyVal.str s) :
    (e.event_type = "process_start" → strContains (lowerStr s) "powershell" = true →
      MitreMapper.map_event e =
        .ok [⟨"T1059.001", "PowerShell", e.seq, e.timestamp,
              "PowerShell process execution detected"⟩]) ∧
    (e.event_type = "process_start" → strContains (lowerStr s) "powershell" = false →
      MitreMapper.map_event e =
        .ok [⟨"T1059", "Command and Scripting Interpreter", e.seq, e.timestamp,
              "Generic process execution"⟩]) ∧
    (e.event_type = "network_connect" →
      MitreMapper.map_event e =
        .ok [⟨"T1071.001", "Application Layer Protocol: Web Protocols", e.seq,
              e.timestamp, "Outbound network connection observed"⟩]) ∧
    (e.event_type = "file_write" →
      MitreMapper.map_event e =
        .ok [⟨"T1105", "Ingress Tool Transfer", e.seq, e.timestamp,
              "Executable written to disk"⟩]) ∧
    (¬ e.event_type = "process_start" → ¬ e.event_type = "network_connect" →
      ¬ e.event_type = "file_write" → MitreMapper.map_event e = .ok []) := by
  refine ⟨?_, ?_, ?_, ?_, ?_⟩
  · intro h1 hc
    simp [MitreMapper.map_event, h1, himg h1, pyLower, hc]
  · intro h1 hc
    simp [MitreMapper.map_event, h1, himg h1, pyLower, hc]
  · intro h2
    have h1 : ¬ e.event_type = "process_start" := by
      rw [h2]
      decide
    simp [MitreMapper.map_event, h1, h2]
  · intro h3
    have h1 : ¬ e.event_type = "process_start" := by
      rw [h3]
      decide
    have h2 : ¬ e.event_type = "network_connect" := by
      rw [h3]
      decide
    simp [MitreMapper.map_event, h1, h2, h3]
  · intro h1 h2 h3
    simp [MitreMapper.map_event, h1, h2, h3]

/-- C8 witness: the amended theorem applied to the spec's concrete
`network_connect` event with `seq` 3 and `timestamp` 1000. -/
theorem c8_amended_witness :
    ("network_connect" = "process_start" → strContains (lowerStr "") "powershell" = true →
      MitreMapper.map_event ⟨3, 1000, "network_connect", []⟩ =
        .ok [⟨"T1059.001", "PowerShell", 3, 1000,
              "PowerShell process execution detected"⟩]) ∧
    ("network_connect" = "process_start" → strContains (lowerStr "") "powershell" = false →
      MitreMapper.map_event ⟨3, 1000, "network_connect", []⟩ =
        .ok [⟨"T1059", "Command and Scripting Interpreter", 3, 1000,
              "Generic process execution"⟩]) ∧
    ("network_connect" = "network_connect" →
      MitreMapper.map_event ⟨3, 1000, "network_connect", []⟩ =
        .ok [⟨"T1071.001", "Application Layer Protocol: Web Protocols", 3,
              1000, "Outbound network connection observed"⟩]) ∧
    ("network_connect" = "file_write" →
      MitreMapper.map_event ⟨3, 1000, "network_connect", []⟩ =
        .ok [⟨"T1105", "Ingress Tool Transfer", 3, 1000,
              "Executable written to disk"⟩]) ∧
    (¬ "network_connect" = "process_start" → ¬ "network_connect" = "network_connect" →
      ¬ "network_connect" = "file_write" →
      MitreMapper.map_event ⟨3, 1000, "network_connect", []⟩ = .ok []) :=
  c8_amended ⟨3, 1000, "network_connect", []⟩ "" (fun h => absurd h (by decide))

end TTFRPlatform
